import Mathlib

/-!
Verification of the declarative command compiler in `src/mario/declarative.py`.

The Python module declares marshmallow schemas (`OptionSchema`, `ArgumentSchema`,
`RemapParamSchema`, `CommandStageSchema`, `CommandTestSpecSchema`,
`CommandSpecSchema`) whose `load` turns a raw configuration mapping into domain
objects (`click.Option`, `click.Argument`, `RemapParam`, `CommandStage`,
`CommandTestSpec`, `CommandSpec`).  This file gives a shallow embedding:

* raw configuration values are the inductive `Raw` (JSON/TOML-like data);
* marshmallow 3 load semantics for the declared fields (external `data_key`
  lookup, load defaults given by `missing=...`, `allow_none`, per-field error
  accumulation into a single `ValidationError`, post-field unknown-key
  detection with `unknown=RAISE`, post-load construction hooks) is embedded by
  `runFld`/`collect`/`finishLoad` and the per-schema `load` functions;
* failures are `PyErr`: marshmallow `ValidationError` trees, the bare Python
  `KeyError` that `TypeField._deserialize` re-raises, and the `TypeError`s
  raised by the `click` constructors and the attrs-generated constructors when
  a required constructor argument is absent from the validated data;
* the stage parameter resolver, which is not part of the shown source, is
  modelled from the specification (see `resolveStage`).

None of the schema fields in the source pass `required=True`, and marshmallow's
`default=` argument is only a serialization default, so on load an absent key
either takes the field's `missing=...` load default or is simply omitted from
the validated mapping.
-/

/-- The primitive type tags of the module-level `TYPES` registry
(`{t.__name__: t for t in [int, str, bool, float]}`). -/
inductive Ty where
  | int
  | str
  | bool
  | float
deriving DecidableEq, Repr

/-- Raw configuration data: the JSON/TOML-like values handed to `Schema.load`.
Numeric literals are modelled as `Int`; none of the declared fields coerces
floating-point input. -/
inductive Raw where
  | null
  | str (s : String)
  | int (n : Int)
  | bool (b : Bool)
  | list (xs : List Raw)
  | map (entries : List (String × Raw))

/-- A raw configuration mapping (a Python dict: keys are unique in practice). -/
abbrev RawMap := List (String × Raw)

/-- Rendering of a raw value used as a Python dict key, as carried by a
`KeyError`.  Lists and dicts are unhashable and never reach a `KeyError`. -/
def Raw.keyRepr : Raw → String
  | .null => "None"
  | .str s => s
  | .int n => toString n
  | .bool true => "True"
  | .bool false => "False"
  | .list _ => "<list>"
  | .map _ => "<dict>"

/-- The messages of a marshmallow `ValidationError`: a mapping from field name
(or list index, or the `_schema` key) to messages or a nested mapping. -/
inductive ErrTree where
  | msgs (ms : List String)
  | node (entries : List (String × ErrTree))

/-- The failures that can escape a schema `load` in the source:
a marshmallow `ValidationError`, the bare `KeyError` re-raised by
`TypeField._deserialize`, a Python `TypeError` (unknown constructor keyword,
missing constructor argument, unhashable dict key), and the
`UnknownParameterError` of the spec-described stage resolver. -/
inductive PyErr where
  | validation (t : ErrTree)
  | keyError (k : String)
  | typeError (msg : String)
  | unknownParameter (name : String)

/-- Outcome of one field deserializer (`Field._deserialize`):
a value, marshmallow validation messages, or a hard (non-marshmallow) error
that aborts the whole load. -/
inductive DRes (α : Type) where
  | ok (a : α)
  | verr (t : ErrTree)
  | hard (e : PyErr)

def DRes.mapv {α β : Type} (f : α → β) : DRes α → DRes β
  | .ok a => .ok (f a)
  | .verr t => .verr t
  | .hard e => .hard e

/-- Outcome of processing one declared field inside `Schema.load`:
omitted from the validated mapping, a value, validation messages, or a hard
error. -/
inductive FOut (α : Type) where
  | omit
  | val (a : α)
  | verr (t : ErrTree)
  | hard (e : PyErr)

/-- `data.get(key, missing)` on the raw mapping. -/
def getKey (data : RawMap) (key : String) : Option Raw :=
  match data.find? (fun e => e.1 == key) with
  | some e => some e.2
  | none => none

/-- marshmallow `Field.deserialize` for one declared field: look the raw value
up under the field's load key; when absent return the load default
(`missing=...`) or omit the field; when present `null`, return the field's
allow-none value or fail with the `null` error; otherwise run the field's
`_deserialize`. -/
def runFld {α : Type} (data : RawMap) (key : String) (missingDefault : Option α)
    (allowNone : Option α) (deser : Raw → DRes α) : FOut α :=
  match getKey data key with
  | none =>
    match missingDefault with
    | some d => .val d
    | none => .omit
  | some .null =>
    match allowNone with
    | some v => .val v
    | none => .verr (.msgs ["Field may not be null."])
  | some r =>
    match deser r with
    | .ok a => .val a
    | .verr t => .verr t
    | .hard e => .hard e

/-- `Schema._call_and_store`: validation messages accumulate under the field's
load key; any non-`ValidationError` exception escapes immediately. -/
def collect {α : Type} (acc : List (String × ErrTree)) (key : String) (f : FOut α) :
    Except PyErr (List (String × ErrTree) × Option α) :=
  match f with
  | .omit => .ok (acc, none)
  | .val a => .ok (acc, some a)
  | .verr t => .ok (acc ++ [(key, t)], none)
  | .hard e => .error e

/-- Unknown-key handling with `unknown=RAISE` (the marshmallow 3 default used
by every schema in the module): every data key that is no field's load key
yields an `Unknown field.` entry. -/
def unknownErrors (loadKeys : List String) (data : RawMap) : List (String × ErrTree) :=
  (data.filter (fun e => !(loadKeys.contains e.1))).map (fun e => (e.1, .msgs ["Unknown field."]))

/-- End of `Schema.load`: if any errors were stored raise one `ValidationError`
carrying all of them, otherwise run the `@post_load` construction hook. -/
def finishLoad {α : Type} (errs : List (String × ErrTree)) (mk : Except PyErr α) :
    Except PyErr α :=
  if errs.isEmpty then mk else .error (.validation (.node errs))

/-- An absent required constructor argument of an attrs class or a `click`
parameter raises `TypeError`. -/
def req {α : Type} (v : Option α) : Except PyErr α :=
  match v with
  | some a => .ok a
  | none => .error (.typeError "init missing a required positional argument")

/-! ## Field deserializers -/

/-- The module-level `TYPES` registry. -/
def TYPES : List (String × Ty) :=
  [("int", Ty.int), ("str", Ty.str), ("bool", Ty.bool), ("float", Ty.float)]

/-- `TypeField._deserialize`: `TYPES[value]`; on `KeyError`, re-raise when the
field was built without a `default`, otherwise return the configured default.
An unhashable raw value (list or dict) raises `TypeError` from the dict lookup
itself, which the `except KeyError` clause does not catch. -/
def typeFieldDeser (dflt : Option Ty) (v : Raw) : DRes Ty :=
  match v with
  | .list _ => .hard (.typeError "unhashable type: list")
  | .map _ => .hard (.typeError "unhashable type: dict")
  | _ =>
    match v with
    | .str s =>
      match TYPES.lookup s with
      | some t => .ok t
      | none =>
        match dflt with
        | some d => .ok d
        | none => .hard (.keyError v.keyRepr)
    | _ =>
      match dflt with
      | some d => .ok d
      | none => .hard (.keyError v.keyRepr)

/-- `OptionNameField._deserialize`: returns `[value]` unconditionally; the
prefix check that follows the `return` statement in the source is unreachable
and therefore contributes nothing to the embedded behaviour. -/
def optionNameDeser (v : Raw) : DRes (List Raw) := .ok [v]

/-- `ArgumentNameField._deserialize`: returns `[value]`. -/
def argumentNameDeser (v : Raw) : DRes (List Raw) := .ok [v]

/-- `AnyField`: no `_deserialize` override, the raw value passes through. -/
def anyDeser (v : Raw) : DRes Raw := .ok v

/-- `fields.String`: accepts exactly strings. -/
def stringDeser : Raw → DRes String
  | .str s => .ok s
  | _ => .verr (.msgs ["Not a valid string."])

/-- `fields.String` wrapped for nullable slots (`missing=None` fields). -/
def stringOptDeser (v : Raw) : DRes (Option String) := (stringDeser v).mapv some

/-- marshmallow 3 truthy string set of `fields.Boolean`. -/
def truthyStrings : List String :=
  ["t", "T", "true", "True", "TRUE", "1", "on", "On", "ON", "y", "Y", "yes", "Yes", "YES"]

/-- marshmallow 3 falsy string set of `fields.Boolean`. -/
def falsyStrings : List String :=
  ["f", "F", "false", "False", "FALSE", "0", "off", "Off", "OFF", "n", "N", "no", "No", "NO"]

/-- `fields.Boolean`: booleans pass through; the integers 0 and 1 and the
truthy/falsy strings coerce; everything else is invalid. -/
def booleanDeser : Raw → DRes Bool
  | .bool b => .ok b
  | .int n =>
    if n == 1 then .ok true
    else if n == 0 then .ok false
    else .verr (.msgs ["Not a valid boolean."])
  | .str s =>
    if truthyStrings.contains s then .ok true
    else if falsyStrings.contains s then .ok false
    else .verr (.msgs ["Not a valid boolean."])
  | _ => .verr (.msgs ["Not a valid boolean."])

/-- `fields.Integer`: integers and integer strings; booleans are rejected. -/
def integerDeser : Raw → DRes Int
  | .int n => .ok n
  | .str s =>
    match s.toInt? with
    | some n => .ok n
    | none => .verr (.msgs ["Not a valid integer."])
  | _ => .verr (.msgs ["Not a valid integer."])

/-- `fields.Dict` with no key/value fields: any mapping passes through. -/
def dictDeser : Raw → DRes (List (String × Raw))
  | .map m => .ok m
  | _ => .verr (.msgs ["Not a valid mapping type."])

/-- `fields.List(inner)` element loop: values in order, per-index error trees,
hard errors abort. -/
def listDeserGo {α : Type} (inner : Raw → DRes α) (idx : Nat) :
    List Raw → Except PyErr (List α × List (String × ErrTree))
  | [] => .ok ([], [])
  | x :: xs =>
    match inner x with
    | .hard e => .error e
    | .ok a =>
      match listDeserGo inner (idx + 1) xs with
      | .error e => .error e
      | .ok (vs, es) => .ok (a :: vs, es)
    | .verr t =>
      match listDeserGo inner (idx + 1) xs with
      | .error e => .error e
      | .ok (vs, es) => .ok (vs, (toString idx, t) :: es)

/-- `fields.List(inner)`: a non-list is invalid; element failures are collected
under their index and raised as one `ValidationError`. -/
def listDeser {α : Type} (inner : Raw → DRes α) : Raw → DRes (List α)
  | .list xs =>
    match listDeserGo inner 0 xs with
    | .error e => .hard e
    | .ok (vs, []) => .ok vs
    | .ok (_, e :: es) => .verr (.node (e :: es))
  | _ => .verr (.msgs ["Not a valid list."])

/-- `fields.Nested(schema)`: run the nested schema's `load`; its
`ValidationError` messages nest under the outer field, other exceptions
propagate; non-mapping input is a schema-level error. -/
def nestedDeser {α : Type} (loadFn : RawMap → Except PyErr α) : Raw → DRes α
  | .map m =>
    match loadFn m with
    | .ok a => .ok a
    | .error (.validation t) => .verr t
    | .error e => .hard e
  | _ => .verr (.node [("_schema", .msgs ["Invalid input type."])])

/-! ## Domain objects -/

/-- The `click.Option` built by `OptionSchema.make_option`, restricted to the
attributes the schema can set.  `click` raises `TypeError` before constructing
anything when `param_decls` is absent or when the unknown keyword `typex` is
passed, so a constructed value never carries a type tag. -/
structure ClickOption where
  param_decls : List Raw
  is_flag : Bool
  help : Option String
  hidden : Bool
  required : Bool
  nargs : Option Int
  multiple : Bool
  default : Option Raw

/-- The `click.Argument` built by `ArgumentSchema.make_argument`.  `type = none`
means the schema omitted the keyword and `click` infers the type. -/
structure ClickArgument where
  param_decls : List Raw
  type : Option Ty
  required : Bool
  nargs : Option Int

/-- The attrs class `RemapParam`. -/
structure RemapParam where
  new : String
  old : String

/-- The attrs class `CommandStage`. -/
structure CommandStage where
  command : String
  remap_params : List RemapParam
  params : List (String × Raw)

/-- The attrs class `CommandTestSpec`. -/
structure CommandTestSpec where
  invocation : List String
  input : String
  output : String

/-- The attrs class `CommandSpec` (fields in source declaration order). -/
structure CommandSpec where
  name : String
  short_help : Option String
  help : Option String
  arguments : List ClickArgument
  options : List ClickOption
  stages : List CommandStage
  inject_values : List String
  test_specs : List CommandTestSpec
  «section» : Option String

/-! ## Post-load constructors -/

/-- `click.Option(**validated)`: the `typex` key is no `click` keyword and
raises `TypeError`; absent `param_decls` leaves `click` unable to determine a
name; otherwise `click`'s own constructor defaults apply
(`is_flag=False`, `hidden=False`, `required=False`, `multiple=False`,
`help=None`, `default=None`, `nargs` unset). -/
def clickOptionMake (param_decls? : Option (List Raw)) (typex? : Option Ty)
    (is_flag? : Option Bool) (help? : Option String) (hidden? : Option Bool)
    (required? : Option Bool) (nargs? : Option Int) (multiple? : Option Bool)
    (default? : Option Raw) : Except PyErr ClickOption :=
  match typex? with
  | some _ => .error (.typeError "got an unexpected keyword argument typex")
  | none =>
    match param_decls? with
    | none => .error (.typeError "could not determine name for option")
    | some [] => .error (.typeError "could not determine name for option")
    | some decls =>
      .ok { param_decls := decls, is_flag := is_flag?.getD false, help := help?,
            hidden := hidden?.getD false, required := required?.getD false,
            nargs := nargs?, multiple := multiple?.getD false, default := default? }

/-- `click.Argument(**validated)`: absent `param_decls` raises `TypeError`;
when `required` is not passed `click` computes it from `nargs` (required unless
variadic). -/
def clickArgumentMake (param_decls? : Option (List Raw)) (type? : Option Ty)
    (required? : Option Bool) (nargs? : Option Int) : Except PyErr ClickArgument :=
  match param_decls? with
  | none => .error (.typeError "could not determine name for argument")
  | some decls =>
    .ok { param_decls := decls, type := type?,
          required := required?.getD (decide ((nargs?.getD 1) > 0)),
          nargs := nargs? }

/-- `RemapParam(**validated)`. -/
def remapParamMake (new? : Option String) (old? : Option String) :
    Except PyErr RemapParam := do
  let n ← req new?
  let o ← req old?
  .ok { new := n, old := o }

/-- `CommandStage(**validated)`. -/
def commandStageMake (command? : Option String) (remap? : Option (List RemapParam))
    (params? : Option (List (String × Raw))) : Except PyErr CommandStage := do
  let c ← req command?
  let r ← req remap?
  let p ← req params?
  .ok { command := c, remap_params := r, params := p }

/-- `CommandTestSpec(**validated)`. -/
def commandTestSpecMake (invocation? : Option (List String)) (input? : Option String)
    (output? : Option String) : Except PyErr CommandTestSpec := do
  let i ← req invocation?
  let inp ← req input?
  let out ← req output?
  .ok { invocation := i, input := inp, output := out }

/-- `CommandSpec(**validated)` (arguments in schema declaration order). -/
def commandSpecMake (name? : Option String) (help? : Option (Option String))
    (short_help? : Option (Option String)) (arguments? : Option (List ClickArgument))
    (options? : Option (List ClickOption)) (stages? : Option (List CommandStage))
    (inject_values? : Option (List String)) (test_specs? : Option (List CommandTestSpec))
    (section? : Option (Option String)) : Except PyErr CommandSpec := do
  let n ← req name?
  let h ← req help?
  let sh ← req short_help?
  let args ← req arguments?
  let opts ← req options?
  let st ← req stages?
  let inj ← req inject_values?
  let ts ← req test_specs?
  let sec ← req section?
  .ok { name := n, short_help := sh, help := h, arguments := args, options := opts,
        stages := st, inject_values := inj, test_specs := ts, «section» := sec }

/-! ## Schema loads -/

/-- The load keys of `OptionSchema` (`param_decls` is read from `name`). -/
def optionLoadKeys : List String :=
  ["name", "typex", "is_flag", "help", "hidden", "required", "nargs", "multiple", "default"]

/-- `OptionSchema().load(data)`. -/
def OptionSchema.load (data : RawMap) : Except PyErr ClickOption := do
  let (e, param_decls?) ← collect [] "name" (runFld data "name" none none optionNameDeser)
  let (e, typex?) ← collect e "typex" (runFld data "typex" none none (typeFieldDeser none))
  let (e, is_flag?) ← collect e "is_flag" (runFld data "is_flag" none none booleanDeser)
  let (e, help?) ← collect e "help" (runFld data "help" none none stringDeser)
  let (e, hidden?) ← collect e "hidden" (runFld data "hidden" none none booleanDeser)
  let (e, required?) ← collect e "required" (runFld data "required" none none booleanDeser)
  let (e, nargs?) ← collect e "nargs" (runFld data "nargs" none none integerDeser)
  let (e, multiple?) ← collect e "multiple" (runFld data "multiple" none none booleanDeser)
  let (e, default?) ← collect e "default" (runFld data "default" none none anyDeser)
  finishLoad (e ++ unknownErrors optionLoadKeys data)
    (clickOptionMake param_decls? typex? is_flag? help? hidden? required? nargs?
      multiple? default?)

/-- The load keys of `ArgumentSchema` (`param_decls` is read from `name`). -/
def argumentLoadKeys : List String := ["name", "type", "required", "nargs"]

/-- `ArgumentSchema().load(data)`; its `type` field is a `TypeField` with
configured default `str`. -/
def ArgumentSchema.load (data : RawMap) : Except PyErr ClickArgument := do
  let (e, param_decls?) ← collect [] "name" (runFld data "name" none none argumentNameDeser)
  let (e, type?) ← collect e "type" (runFld data "type" none none (typeFieldDeser (some Ty.str)))
  let (e, required?) ← collect e "required" (runFld data "required" none none booleanDeser)
  let (e, nargs?) ← collect e "nargs" (runFld data "nargs" none none integerDeser)
  finishLoad (e ++ unknownErrors argumentLoadKeys data)
    (clickArgumentMake param_decls? type? required? nargs?)

/-- The load keys of `RemapParamSchema`. -/
def remapParamLoadKeys : List String := ["new", "old"]

/-- `RemapParamSchema().load(data)`. -/
def RemapParamSchema.load (data : RawMap) : Except PyErr RemapParam := do
  let (e, new?) ← collect [] "new" (runFld data "new" none none stringDeser)
  let (e, old?) ← collect e "old" (runFld data "old" none none stringDeser)
  finishLoad (e ++ unknownErrors remapParamLoadKeys data) (remapParamMake new? old?)

/-- The load keys of `CommandStageSchema`. -/
def commandStageLoadKeys : List String := ["command", "remap_params", "params"]

/-- `CommandStageSchema().load(data)`: `remap_params` has load default `[]` and
`params` load default `{}`. -/
def CommandStageSchema.load (data : RawMap) : Except PyErr CommandStage := do
  let (e, command?) ← collect [] "command" (runFld data "command" none none stringDeser)
  let (e, remap?) ← collect e "remap_params"
    (runFld data "remap_params" (some []) none (listDeser (nestedDeser RemapParamSchema.load)))
  let (e, params?) ← collect e "params" (runFld data "params" (some []) none dictDeser)
  finishLoad (e ++ unknownErrors commandStageLoadKeys data)
    (commandStageMake command? remap? params?)

/-- The load keys of `CommandTestSpecSchema`. -/
def commandTestSpecLoadKeys : List String := ["invocation", "input", "output"]

/-- `CommandTestSpecSchema().load(data)`. -/
def CommandTestSpecSchema.load (data : RawMap) : Except PyErr CommandTestSpec := do
  let (e, invocation?) ← collect [] "invocation"
    (runFld data "invocation" none none (listDeser stringDeser))
  let (e, input?) ← collect e "input" (runFld data "input" none none stringDeser)
  let (e, output?) ← collect e "output" (runFld data "output" none none stringDeser)
  finishLoad (e ++ unknownErrors commandTestSpecLoadKeys data)
    (commandTestSpecMake invocation? input? output?)

/-- The load keys of `CommandSpecSchema` (`stages` is read from `stage`,
`test_specs` from `test`). -/
def commandSpecLoadKeys : List String :=
  ["name", "help", "short_help", "arguments", "options", "stage", "inject_values",
   "test", "section"]

/-- `CommandSpecSchema().load(data)`: `help`, `short_help` and `section` have
load default `None` (and hence allow explicit null); `arguments`, `options`,
`inject_values` and `test_specs` have load default `[]`; `stages` has no load
default and is not declared required. -/
def CommandSpecSchema.load (data : RawMap) : Except PyErr CommandSpec := do
  let (e, name?) ← collect [] "name" (runFld data "name" none none stringDeser)
  let (e, help?) ← collect e "help"
    (runFld data "help" (some none) (some none) stringOptDeser)
  let (e, short_help?) ← collect e "short_help"
    (runFld data "short_help" (some none) (some none) stringOptDeser)
  let (e, arguments?) ← collect e "arguments"
    (runFld data "arguments" (some []) none (listDeser (nestedDeser ArgumentSchema.load)))
  let (e, options?) ← collect e "options"
    (runFld data "options" (some []) none (listDeser (nestedDeser OptionSchema.load)))
  let (e, stages?) ← collect e "stage"
    (runFld data "stage" none none (listDeser (nestedDeser CommandStageSchema.load)))
  let (e, inject_values?) ← collect e "inject_values"
    (runFld data "inject_values" (some []) none (listDeser stringDeser))
  let (e, test_specs?) ← collect e "test"
    (runFld data "test" (some []) none (listDeser (nestedDeser CommandTestSpecSchema.load)))
  let (e, section?) ← collect e "section"
    (runFld data "section" (some none) (some none) stringOptDeser)
  finishLoad (e ++ unknownErrors commandSpecLoadKeys data)
    (commandSpecMake name? help? short_help? arguments? options? stages? inject_values?
      test_specs? section?)

/-! ## Stage resolution (spec-modelled) -/

/-- Modelled from the spec: the stage resolver of section 4.6 is not part of the
shown source (only the `CommandStage` data class is); `remapName` applies the
stage's `remap_params` renames (`old` to `new`) to one base-command parameter
name, a name with no remap entry keeping its canonical name. -/
def remapName (remaps : List RemapParam) (n : String) : String :=
  match remaps.find? (fun r => r.old == n) with
  | some r => r.new
  | none => n

/-- Modelled from the spec: the stage-local parameter namespace, obtained by
renaming every base-command parameter (given with its default value). -/
def localParams (base : List (String × Raw)) (stage : CommandStage) :
    List (String × Raw) :=
  base.map (fun p => (remapName stage.remap_params p.1, p.2))

/-- Modelled from the spec: substitute the stage's `params` override for one
stage-local parameter's default, if an override names it. -/
def substOverride (params : List (String × Raw)) (p : String × Raw) : String × Raw :=
  match params.find? (fun kv => kv.1 == p.1) with
  | some kv => (p.1, kv.2)
  | none => p

/-- Modelled from the spec: stage resolution of section 4.6, steps 2 and 3.
Every `params` key must name a stage-local parameter (after remapping),
otherwise resolution fails with `UnknownParameterError`; on success each
override replaces the named parameter's default. -/
def resolveStage (base : List (String × Raw)) (stage : CommandStage) :
    Except PyErr (List (String × Raw)) :=
  match stage.params.find?
      (fun kv => !(((localParams base stage).map Prod.fst).contains kv.1)) with
  | some kv => .error (.unknownParameter kv.1)
  | none => .ok ((localParams base stage).map (substOverride stage.params))

/-- Whether a stage-resolution outcome is an `UnknownParameterError`. -/
def isUnknownParameterErr : Except PyErr (List (String × Raw)) → Bool
  | .error (.unknownParameter _) => true
  | _ => false

/-! ## Concrete configurations used by the witnesses -/

/-- The `CommandSpec` compiled from `{name: "x", stage: []}`. -/
def specXEmpty : CommandSpec :=
  { name := "x", short_help := none, help := none, arguments := [], options := [],
    stages := [], inject_values := [], test_specs := [], «section» := none }

/-- The `CommandStage` compiled from `{command: "c"}`. -/
def stageC : CommandStage := { command := "c", remap_params := [], params := [] }

/-- The `CommandSpec` compiled from the mixed configuration
`{name: "x", stage: [], help: "h"}` (one optional key present, the rest
absent). -/
def specXHelp : CommandSpec :=
  { name := "x", short_help := none, help := some "h", arguments := [], options := [],
    stages := [], inject_values := [], test_specs := [], «section» := none }

/-- A base command parameter set `{a, b}` with default values. -/
def baseAB : List (String × Raw) := [("a", Raw.str "0"), ("b", Raw.str "0")]

/-- A stage renaming `a` to `x` and overriding the unknown parameter `z`. -/
def stageZ : CommandStage :=
  { command := "c", remap_params := [{ new := "x", old := "a" }],
    params := [("z", Raw.str "1")] }

/-- A stage renaming `a` to `x` and overriding `x` and `b` (the spec's
section 8 example). -/
def stageXB : CommandStage :=
  { command := "c", remap_params := [{ new := "x", old := "a" }],
    params := [("x", Raw.str "1"), ("b", Raw.str "2")] }

/-- The `click.Option` compiled from `{name: "--x"}`. -/
def optDashX : ClickOption :=
  { param_decls := [Raw.str "--x"], is_flag := false, help := none, hidden := false,
    required := false, nargs := none, multiple := false, default := none }

/-! ## Inversion helpers for `Except` do-chains -/

theorem bindOk {ε α β : Type} {x : Except ε α} {f : α → Except ε β} {b : β}
    (h : x >>= f = Except.ok b) : ∃ a, x = Except.ok a ∧ f a = Except.ok b := by
  cases x with
  | error e => simp [Bind.bind, Except.bind] at h
  | ok a => exact ⟨a, rfl, h⟩

theorem collect_val_snd {α : Type} {acc acc2 : List (String × ErrTree)} {key : String}
    {a : α} {v : Option α} (h : collect acc key (FOut.val a) = .ok (acc2, v)) :
    v = some a := (congrArg Prod.snd (Except.ok.inj h)).symm

theorem collect_omit_snd {α : Type} {acc acc2 : List (String × ErrTree)} {key : String}
    {v : Option α} (h : collect acc key (FOut.omit : FOut α) = .ok (acc2, v)) :
    v = none := (congrArg Prod.snd (Except.ok.inj h)).symm

theorem collect_runFld_absent {α : Type} {data : RawMap} {key : String} {d : α}
    {an : Option α} {deser : Raw → DRes α} {acc acc2 : List (String × ErrTree)}
    {v : Option α} (habs : getKey data key = none)
    (h : collect acc key (runFld data key (some d) an deser) = .ok (acc2, v)) :
    v = some d := by
  rw [show runFld data key (some d) an deser = FOut.val d from by
    simp [runFld, habs]] at h
  exact collect_val_snd h

theorem finishLoad_eq_ok {α : Type} {e : List (String × ErrTree)} {mk : Except PyErr α}
    {x : α} (h : finishLoad e mk = .ok x) : mk = .ok x := by
  unfold finishLoad at h
  split at h
  · exact h
  · exact Except.noConfusion h

theorem finishLoad_append_ne_ok {α : Type} {e u : List (String × ErrTree)}
    {mk : Except PyErr α} {x : α} (hu : u ≠ []) : finishLoad (e ++ u) mk ≠ .ok x := by
  intro h
  unfold finishLoad at h
  rw [if_neg] at h
  · exact Except.noConfusion h
  · simp [List.isEmpty_eq_true, List.append_eq_nil, hu]

theorem unknownErrors_ne_nil {keys : List String} {data : RawMap} {k : String}
    (hk : k ∈ data.map Prod.fst) (hnot : keys.contains k = false) :
    unknownErrors keys data ≠ [] := by
  obtain ⟨p, hp, hpk⟩ := List.mem_map.mp hk
  intro h
  unfold unknownErrors at h
  rw [List.map_eq_nil_iff] at h
  have : p ∈ data.filter (fun e => !(keys.contains e.1)) :=
    List.mem_filter.mpr ⟨hp, by simp only [hpk, hnot]; rfl⟩
  rw [h] at this
  exact (List.not_mem_nil p) this

theorem runFld_present {α : Type} (data : RawMap) (key : String) (r : Raw)
    (hr : getKey data key = some r) (hne : r ≠ Raw.null)
    (md an : Option α) (deser : Raw → DRes α) :
    runFld data key md an deser =
      match deser r with
      | .ok a => .val a
      | .verr t => .verr t
      | .hard e => .hard e := by
  unfold runFld
  rw [hr]
  cases r with
  | null => exact absurd rfl hne
  | str s => rfl
  | int n => rfl
  | bool b => rfl
  | list xs => rfl
  | map m => rfl

theorem find?_fst_eq_lookup (k : String) (l : List (String × Raw)) :
    (l.find? (fun kv => kv.1 == k)).map Prod.snd = l.lookup k := by
  induction l with
  | nil => rfl
  | cons hd tl ih =>
    obtain ⟨a, b⟩ := hd
    by_cases hk : a = k
    · subst hk
      simp [List.find?, List.lookup]
    · simp only [List.find?, List.lookup]
      rw [show (a == k) = false from by simp [hk]]
      rw [show (k == a) = false from by simp [Ne.symm hk]]
      exact ih

theorem substOverride_eq (params : List (String × Raw)) (p : String × Raw) :
    substOverride params p = (p.1, (params.lookup p.1).getD p.2) := by
  unfold substOverride
  rw [← find?_fst_eq_lookup]
  cases h : params.find? (fun kv => kv.1 == p.1) <;> simp

theorem forall2_map_self {α β : Type} (R : α → β → Prop) (g : α → β) (l : List α)
    (hg : ∀ p ∈ l, R p (g p)) : List.Forall₂ R l (l.map g) := by
  induction l with
  | nil => exact List.Forall₂.nil
  | cons hd tl ih =>
    exact List.Forall₂.cons (hg hd (by simp)) (ih (fun p hp => hg p (by simp [hp])))

/-! ## Claim theorems -/

/-- C3 (confirmed): deserializing a type name through `TypeField` yields the
corresponding primitive type for `int`, `str`, `bool`, `float` (with or without
a configured default); for every other name it yields the configured default
when one exists and fails with the `UnknownTypeError` (`KeyError`) when none
does; hence `ArgumentSchema`, whose `type` field defaults to `str`, resolves an
unrecognized name to `str`, while `OptionSchema`, whose `typex` field has no
default, fails. -/
theorem c3_type_name_resolution (n : String) (d : Ty)
    (h : ¬ (n = "int" ∨ n = "str" ∨ n = "bool" ∨ n = "float")) :
    typeFieldDeser none (Raw.str "int") = .ok Ty.int ∧
    typeFieldDeser none (Raw.str "str") = .ok Ty.str ∧
    typeFieldDeser none (Raw.str "bool") = .ok Ty.bool ∧
    typeFieldDeser none (Raw.str "float") = .ok Ty.float ∧
    typeFieldDeser (some d) (Raw.str "int") = .ok Ty.int ∧
    typeFieldDeser (some d) (Raw.str n) = .ok d ∧
    typeFieldDeser none (Raw.str n) = .hard (.keyError n) ∧
    ArgumentSchema.load [("name", Raw.str "a"), ("type", Raw.str n)] =
      .ok { param_decls := [Raw.str "a"], type := some Ty.str, required := true,
            nargs := none } ∧
    OptionSchema.load [("name", Raw.str "--a"), ("typex", Raw.str n)] =
      .error (.keyError n) := by
  push_neg at h
  obtain ⟨h1, h2, h3, h4⟩ := h
  have hl : TYPES.lookup n = none := by
    simp only [TYPES, List.lookup]
    rw [show (n == "int") = false from beq_eq_false_iff_ne.mpr h1,
      show (n == "str") = false from beq_eq_false_iff_ne.mpr h2,
      show (n == "bool") = false from beq_eq_false_iff_ne.mpr h3,
      show (n == "float") = false from beq_eq_false_iff_ne.mpr h4]
  have tdflt : ∀ d' : Ty, typeFieldDeser (some d') (Raw.str n) = .ok d' := by
    intro d'
    simp [typeFieldDeser, hl]
  have tnone : typeFieldDeser none (Raw.str n) = .hard (.keyError n) := by
    simp [typeFieldDeser, hl, Raw.keyRepr]
  have harg : runFld [("name", Raw.str "a"), ("type", Raw.str n)] "type" none none
      (typeFieldDeser (some Ty.str)) = FOut.val Ty.str := by
    simp [runFld, getKey, List.find?, tdflt]
  have hopt : runFld [("name", Raw.str "--a"), ("typex", Raw.str n)] "typex" none none
      (typeFieldDeser none) = FOut.hard (.keyError n) := by
    simp [runFld, getKey, List.find?, tnone]
  refine ⟨rfl, rfl, rfl, rfl, rfl, tdflt d, tnone, ?_, ?_⟩
  · unfold ArgumentSchema.load
    simp only [harg]
    rfl
  · unfold OptionSchema.load
    simp only [hopt]
    rfl

/-- Witness for C3 at the unrecognized name `bogus` with configured default
`float`. -/
theorem c3_type_name_resolution_witness :
    typeFieldDeser (some Ty.float) (Raw.str "bogus") = .ok Ty.float ∧
    typeFieldDeser none (Raw.str "bogus") = .hard (.keyError "bogus") := by
  have h := c3_type_name_resolution "bogus" Ty.float (by decide)
  exact ⟨h.2.2.2.2.2.1, h.2.2.2.2.2.2.1⟩

/-- C4 (confirmed): both name validators wrap every raw value, string or not,
in a one-element list.  The statement is quantified over all strings, so in
particular a string that does not start with `-` passes the option-name
validator unchanged: the source's prefix check is dead code after an
unconditional `return` and enforces nothing. -/
theorem c4_name_validators (v : Raw) (s : String) :
    optionNameDeser v = .ok [v] ∧ argumentNameDeser v = .ok [v] ∧
    optionNameDeser (Raw.str s) = .ok [Raw.str s] ∧
    argumentNameDeser (Raw.str s) = .ok [Raw.str s] :=
  ⟨rfl, rfl, rfl, rfl⟩

/-- C5 (confirmed): loading `{name: "--x"}` through `OptionSchema` succeeds and
yields an option descriptor with `is_flag = false`, `hidden = false`,
`required = false` and no default value. -/
theorem c5_minimal_option_load :
    OptionSchema.load [("name", Raw.str "--x")] = .ok optDashX ∧
    optDashX.is_flag = false ∧ optDashX.hidden = false ∧
    optDashX.required = false ∧ optDashX.default = none :=
  ⟨rfl, rfl, rfl, rfl, rfl⟩

/-- C1 (corrected, counterexample): loading a `CommandSpec` configuration that
is missing the `stage` key but is otherwise valid does not raise a marshmallow
`ValidationError` naming `stages`: the schema never declares the field
required, so the load reaches the post-load hook and `CommandSpec(**validated)`
raises a `TypeError` for the absent constructor argument instead. -/
theorem c1_missing_stage_counterexample :
    CommandSpecSchema.load [("name", Raw.str "x")] =
      .error (.typeError "init missing a required positional argument") := rfl

/-- C1 (corrected, amended): a `CommandSpec` configuration without a `stage`
key can never load successfully, but the failure on an otherwise-valid
configuration is the post-load constructor `TypeError`, not a `ValidationError`
naming `stages`; likewise the other documented-required fields are not declared
required in their schemas (an absent Option `typex`, for instance, is not an
error at all). -/
theorem c1_missing_stage_amended :
    (∀ (data : RawMap) (s : CommandSpec), getKey data "stage" = none →
      CommandSpecSchema.load data ≠ .ok s) ∧
    CommandSpecSchema.load [("name", Raw.str "x")] =
      .error (.typeError "init missing a required positional argument") := by
  refine ⟨?_, rfl⟩
  intro data s hstage h
  unfold CommandSpecSchema.load at h
  obtain ⟨⟨e1, v1⟩, -, h⟩ := bindOk h
  obtain ⟨⟨e2, v2⟩, -, h⟩ := bindOk h
  obtain ⟨⟨e3, v3⟩, -, h⟩ := bindOk h
  obtain ⟨⟨e4, v4⟩, -, h⟩ := bindOk h
  obtain ⟨⟨e5, v5⟩, -, h⟩ := bindOk h
  obtain ⟨⟨e6, v6⟩, h6, h⟩ := bindOk h
  rw [show runFld data "stage" none none
        (listDeser (nestedDeser CommandStageSchema.load)) = FOut.omit from by
      simp [runFld, hstage]] at h6
  obtain rfl := collect_omit_snd h6
  obtain ⟨⟨e7, v7⟩, -, h⟩ := bindOk h
  obtain ⟨⟨e8, v8⟩, -, h⟩ := bindOk h
  obtain ⟨⟨e9, v9⟩, -, h⟩ := bindOk h
  have h' := finishLoad_eq_ok h
  unfold commandSpecMake at h'
  obtain ⟨a1, -, h'⟩ := bindOk h'
  obtain ⟨a2, -, h'⟩ := bindOk h'
  obtain ⟨a3, -, h'⟩ := bindOk h'
  obtain ⟨a4, -, h'⟩ := bindOk h'
  obtain ⟨a5, -, h'⟩ := bindOk h'
  obtain ⟨a6, h6', -⟩ := bindOk h'
  simp [req] at h6'

/-- Witness for C1 at the configuration `{name: "x"}`. -/
theorem c1_missing_stage_witness :
    CommandSpecSchema.load [("name", Raw.str "x")] ≠ .ok specXEmpty :=
  c1_missing_stage_amended.1 [("name", Raw.str "x")] specXEmpty rfl

/-- C2 (corrected, counterexample): an `OptionSchema` configuration whose
`typex` holds an unrecognized type name and whose `is_flag` is also invalid
does not produce one `ValidationError` with both field errors: the `KeyError`
re-raised by `TypeField._deserialize` escapes immediately (fail-fast), before
`is_flag` is even examined. -/
theorem c2_error_accumulation_counterexample :
    OptionSchema.load
      [("name", Raw.str "--x"), ("typex", Raw.str "bogus"), ("is_flag", Raw.int 7)] =
      .error (.keyError "bogus") := rfl

/-- C2 (corrected, amended): marshmallow-level field failures do accumulate
into one `ValidationError` mapping each failing field's load key to its
messages, and a nested schema's failure propagates under the nesting field's
key (with the list index); but an unrecognized type name reaching a `TypeField`
without a configured default raises a bare `KeyError` that aborts the load at
once, discarding the other fields' errors. -/
theorem c2_error_accumulation_amended (b hv : Raw) (tb th : ErrTree)
    (hbn : b ≠ Raw.null) (hhn : hv ≠ Raw.null)
    (hb : booleanDeser b = .verr tb) (hh : stringDeser hv = .verr th) :
    OptionSchema.load [("name", Raw.str "--x"), ("is_flag", b), ("help", hv)] =
      .error (.validation (.node [("is_flag", tb), ("help", th)])) ∧
    CommandSpecSchema.load
        [("name", Raw.str "c"), ("stage", Raw.list [Raw.map [("command", Raw.int 5)]])] =
      .error (.validation (.node
        [("stage", .node [("0", .node [("command", .msgs ["Not a valid string."])])])])) ∧
    OptionSchema.load [("typex", Raw.str "bogus"), ("help", hv)] =
      .error (.keyError "bogus") := by
  have hflag : runFld [("name", Raw.str "--x"), ("is_flag", b), ("help", hv)]
      "is_flag" none none booleanDeser = FOut.verr tb := by
    rw [runFld_present [("name", Raw.str "--x"), ("is_flag", b), ("help", hv)]
          "is_flag" b rfl hbn none none booleanDeser, hb]
  have hhelp : runFld [("name", Raw.str "--x"), ("is_flag", b), ("help", hv)]
      "help" none none stringDeser = FOut.verr th := by
    rw [runFld_present [("name", Raw.str "--x"), ("is_flag", b), ("help", hv)]
          "help" hv rfl hhn none none stringDeser, hh]
  refine ⟨?_, rfl, rfl⟩
  unfold OptionSchema.load
  simp only [hflag, hhelp]
  rfl

/-- Witness for C2 at `is_flag = 7` and `help = 3`. -/
theorem c2_error_accumulation_witness :
    booleanDeser (Raw.int 7) = .verr (.msgs ["Not a valid boolean."]) ∧
    stringDeser (Raw.int 3) = .verr (.msgs ["Not a valid string."]) ∧
    OptionSchema.load [("name", Raw.str "--x"), ("is_flag", Raw.int 7), ("help", Raw.int 3)] =
      .error (.validation (.node [("is_flag", .msgs ["Not a valid boolean."]),
                                  ("help", .msgs ["Not a valid string."])])) :=
  ⟨rfl, rfl,
    (c2_error_accumulation_amended (Raw.int 7) (Raw.int 3)
      (.msgs ["Not a valid boolean."]) (.msgs ["Not a valid string."])
      (by intro h; cases h) (by intro h; cases h) rfl rfl).1⟩

/-- C6 (confirmed): for every `CommandSpec` configuration that loads
successfully, each absent optional key — independently of whether the other
keys are present — leaves its documented default in the result: `arguments`,
`options`, `inject_values` and `test_specs` default to the empty list, `help`,
`short_help` and `section` to unset; and for every successfully loading stage
configuration, an absent `remap_params` defaults to the empty list and an
absent `params` to the empty mapping. -/
theorem c6_absent_optional_defaults :
    (∀ (data : RawMap) (spec : CommandSpec), CommandSpecSchema.load data = .ok spec →
      ((getKey data "arguments" = none → spec.arguments = []) ∧
       (getKey data "options" = none → spec.options = []) ∧
       (getKey data "inject_values" = none → spec.inject_values = []) ∧
       (getKey data "test" = none → spec.test_specs = []) ∧
       (getKey data "help" = none → spec.help = none) ∧
       (getKey data "short_help" = none → spec.short_help = none) ∧
       (getKey data "section" = none → spec.«section» = none))) ∧
    (∀ (sdata : RawMap) (stage : CommandStage),
      CommandStageSchema.load sdata = .ok stage →
      ((getKey sdata "remap_params" = none → stage.remap_params = []) ∧
       (getKey sdata "params" = none → stage.params = []))) := by
  constructor
  · intro data spec hload
    unfold CommandSpecSchema.load at hload
    obtain ⟨⟨e1, v1⟩, -, h⟩ := bindOk hload
    obtain ⟨⟨e2, v2⟩, h2, h⟩ := bindOk h
    obtain ⟨⟨e3, v3⟩, h3, h⟩ := bindOk h
    obtain ⟨⟨e4, v4⟩, h4, h⟩ := bindOk h
    obtain ⟨⟨e5, v5⟩, h5, h⟩ := bindOk h
    obtain ⟨⟨e6, v6⟩, -, h⟩ := bindOk h
    obtain ⟨⟨e7, v7⟩, h7, h⟩ := bindOk h
    obtain ⟨⟨e8, v8⟩, h8, h⟩ := bindOk h
    obtain ⟨⟨e9, v9⟩, h9, h⟩ := bindOk h
    have h' := finishLoad_eq_ok h
    unfold commandSpecMake at h'
    obtain ⟨a1, -, h'⟩ := bindOk h'
    obtain ⟨a2, ha2, h'⟩ := bindOk h'
    obtain ⟨a3, ha3, h'⟩ := bindOk h'
    obtain ⟨a4, ha4, h'⟩ := bindOk h'
    obtain ⟨a5, ha5, h'⟩ := bindOk h'
    obtain ⟨a6, -, h'⟩ := bindOk h'
    obtain ⟨a7, ha7, h'⟩ := bindOk h'
    obtain ⟨a8, ha8, h'⟩ := bindOk h'
    obtain ⟨a9, ha9, h'⟩ := bindOk h'
    obtain rfl := Except.ok.inj h'
    refine ⟨fun hb => ?_, fun hb => ?_, fun hb => ?_, fun hb => ?_, fun hb => ?_,
      fun hb => ?_, fun hb => ?_⟩
    · obtain rfl := collect_runFld_absent hb h4
      obtain rfl : a4 = [] := (Except.ok.inj ha4).symm
      simp
    · obtain rfl := collect_runFld_absent hb h5
      obtain rfl : a5 = [] := (Except.ok.inj ha5).symm
      simp
    · obtain rfl := collect_runFld_absent hb h7
      obtain rfl : a7 = [] := (Except.ok.inj ha7).symm
      simp
    · obtain rfl := collect_runFld_absent hb h8
      obtain rfl : a8 = [] := (Except.ok.inj ha8).symm
      simp
    · obtain rfl := collect_runFld_absent hb h2
      obtain rfl : a2 = none := (Except.ok.inj ha2).symm
      simp
    · obtain rfl := collect_runFld_absent hb h3
      obtain rfl : a3 = none := (Except.ok.inj ha3).symm
      simp
    · obtain rfl := collect_runFld_absent hb h9
      obtain rfl : a9 = none := (Except.ok.inj ha9).symm
      simp
  · intro sdata stage hsload
    unfold CommandStageSchema.load at hsload
    obtain ⟨⟨f1, w1⟩, -, hs⟩ := bindOk hsload
    obtain ⟨⟨f2, w2⟩, hs2, hs⟩ := bindOk hs
    obtain ⟨⟨f3, w3⟩, hs3, hs⟩ := bindOk hs
    have hs' := finishLoad_eq_ok hs
    unfold commandStageMake at hs'
    obtain ⟨b1, -, hs'⟩ := bindOk hs'
    obtain ⟨b2, hb2, hs'⟩ := bindOk hs'
    obtain ⟨b3, hb3, hs'⟩ := bindOk hs'
    obtain rfl := Except.ok.inj hs'
    refine ⟨fun hb => ?_, fun hb => ?_⟩
    · obtain rfl := collect_runFld_absent hb hs2
      obtain rfl : b2 = [] := (Except.ok.inj hb2).symm
      simp
    · obtain rfl := collect_runFld_absent hb hs3
      obtain rfl : b3 = [] := (Except.ok.inj hb3).symm
      simp

/-- Witness for C6 at `{name: "x", stage: []}` (all optional keys absent),
the mixed configuration `{name: "x", stage: [], help: "h"}` (where the absent
`arguments` still defaults while `help` is present), and the stage
configuration `{command: "c"}`. -/
theorem c6_absent_optional_defaults_witness :
    specXEmpty.arguments = [] ∧ specXEmpty.options = [] ∧
    specXEmpty.inject_values = [] ∧ specXEmpty.test_specs = [] ∧
    specXEmpty.help = none ∧ specXEmpty.short_help = none ∧
    specXEmpty.«section» = none ∧ specXHelp.arguments = [] ∧
    stageC.remap_params = [] ∧ stageC.params = [] := by
  have h := c6_absent_optional_defaults.1 [("name", Raw.str "x"), ("stage", Raw.list [])]
    specXEmpty rfl
  have hmix := c6_absent_optional_defaults.1
    [("name", Raw.str "x"), ("stage", Raw.list []), ("help", Raw.str "h")] specXHelp rfl
  have hst := c6_absent_optional_defaults.2 [("command", Raw.str "c")] stageC rfl
  exact ⟨h.1 rfl, h.2.1 rfl, h.2.2.1 rfl, h.2.2.2.1 rfl, h.2.2.2.2.1 rfl,
    h.2.2.2.2.2.1 rfl, h.2.2.2.2.2.2 rfl, hmix.1 rfl, hst.1 rfl, hst.2 rfl⟩

/-- C7 (confirmed): the value supplied under the external key `name` populates
the internal `param_decls` field of both option and argument descriptors, the
external key `stage` populates `stages`, and the external key `test` populates
`test_specs`. -/
theorem c7_external_key_remapping (s v : String) :
    OptionSchema.load [("name", Raw.str s)] =
      .ok { param_decls := [Raw.str s], is_flag := false, help := none, hidden := false,
            required := false, nargs := none, multiple := false, default := none } ∧
    ArgumentSchema.load [("name", Raw.str s)] =
      .ok { param_decls := [Raw.str s], type := none, required := true, nargs := none } ∧
    CommandSpecSchema.load [("name", Raw.str s),
        ("stage", Raw.list [Raw.map [("command", Raw.str v)]]),
        ("test", Raw.list [Raw.map [("invocation", Raw.list []), ("input", Raw.str v),
                                    ("output", Raw.str v)]])] =
      .ok { name := s, short_help := none, help := none, arguments := [], options := [],
            stages := [{ command := v, remap_params := [], params := [] }],
            inject_values := [],
            test_specs := [{ invocation := [], input := v, output := v }],
            «section» := none } :=
  ⟨rfl, rfl, rfl⟩

/-- C8 (confirmed): compilation is deterministic — the embedding of
`CommandSpecSchema.load` is a pure function of the configuration, so two
successful loads of the same configuration yield equal `CommandSpec` values
(side effects other than the raised errors do not exist in the load). -/
theorem c8_load_deterministic (data : RawMap) (s1 s2 : CommandSpec)
    (h1 : CommandSpecSchema.load data = .ok s1)
    (h2 : CommandSpecSchema.load data = .ok s2) : s1 = s2 :=
  Except.ok.inj (h1.symm.trans h2)

/-- Witness for C8 at `{name: "x", stage: []}`. -/
theorem c8_load_deterministic_witness :
    CommandSpecSchema.load [("name", Raw.str "x"), ("stage", Raw.list [])] =
      .ok specXEmpty ∧ specXEmpty = specXEmpty :=
  ⟨rfl, c8_load_deterministic [("name", Raw.str "x"), ("stage", Raw.list [])]
    specXEmpty specXEmpty rfl rfl⟩

/-- C9 (confirmed, spec-modelled): stage resolution substitutes each `params`
override for the default of the stage-local parameter it names — after the
`remap_params` renames — leaving unoverridden parameters at their defaults, and
fails with `UnknownParameterError` whenever some `params` key matches no
stage-local parameter name after remapping. -/
theorem c9_stage_resolution (base : List (String × Raw)) (stage : CommandStage) :
    (∀ out, resolveStage base stage = .ok out →
      List.Forall₂ (fun p q =>
        q.1 = remapName stage.remap_params p.1 ∧
        q.2 = ((stage.params.lookup (remapName stage.remap_params p.1)).getD p.2))
        base out) ∧
    (∀ kv ∈ stage.params, (∀ p ∈ base, remapName stage.remap_params p.1 ≠ kv.1) →
      isUnknownParameterErr (resolveStage base stage) = true) := by
  constructor
  · intro out hout
    unfold resolveStage at hout
    split at hout
    · exact Except.noConfusion hout
    · obtain rfl := (Except.ok.inj hout).symm
      rw [localParams, List.map_map]
      refine forall2_map_self _ _ _ (fun p hp => ?_)
      simp [substOverride_eq]
  · intro kv hmem hnone
    unfold resolveStage
    cases hfind : stage.params.find?
        (fun kv => !(((localParams base stage).map Prod.fst).contains kv.1)) with
    | some kv' => rfl
    | none =>
      exfalso
      have hall := List.find?_eq_none.mp hfind kv hmem
      simp at hall
      obtain ⟨x, hx⟩ := hall
      unfold localParams at hx
      obtain ⟨p, hp, heq⟩ := List.mem_map.mp hx
      exact hnone p hp (congrArg Prod.fst heq)

/-- Witness for C9: overriding the unknown key `z` over base parameters
`{a, b}` with `a` renamed to `x` fails with `UnknownParameterError`, and the
overrides `{x: 1, b: 2}` resolve to `{x: 1, b: 2}`. -/
theorem c9_stage_resolution_witness :
    isUnknownParameterErr (resolveStage baseAB stageZ) = true ∧
    List.Forall₂ (fun p q =>
      q.1 = remapName stageXB.remap_params p.1 ∧
      q.2 = ((stageXB.params.lookup (remapName stageXB.remap_params p.1)).getD p.2))
      baseAB [("x", Raw.str "1"), ("b", Raw.str "2")] :=
  ⟨(c9_stage_resolution baseAB stageZ).2 ("z", Raw.str "1") (by simp [stageZ])
      (by decide),
   (c9_stage_resolution baseAB stageXB).1 [("x", Raw.str "1"), ("b", Raw.str "2")] rfl⟩

/-- C10 (corrected, counterexample): an `OptionSchema` configuration with the
unknown key `zzz` does fail, but not always with a `ValidationError`: when the
configuration also carries an unrecognized `typex` name, the `TypeField`
`KeyError` escapes during the field loop, before unknown-key detection runs. -/
theorem c10_unknown_key_counterexample :
    OptionSchema.load [("zzz", Raw.str "u"), ("typex", Raw.str "bogus")] =
      .error (.keyError "bogus") := rfl

/-- C10 (corrected, amended): for every schema in the module, a configuration
containing a key that is neither a field name nor a declared external data key
never loads successfully; the failure is a `ValidationError` naming the unknown
key (as on the concrete stage configuration below) except when a `TypeField`
`KeyError` aborts the field loop first. -/
theorem c10_unknown_key_amended :
    (∀ (data : RawMap) (k : String) (x : ClickOption), k ∈ data.map Prod.fst →
      optionLoadKeys.contains k = false → OptionSchema.load data ≠ .ok x) ∧
    (∀ (data : RawMap) (k : String) (x : ClickArgument), k ∈ data.map Prod.fst →
      argumentLoadKeys.contains k = false → ArgumentSchema.load data ≠ .ok x) ∧
    (∀ (data : RawMap) (k : String) (x : RemapParam), k ∈ data.map Prod.fst →
      remapParamLoadKeys.contains k = false → RemapParamSchema.load data ≠ .ok x) ∧
    (∀ (data : RawMap) (k : String) (x : CommandStage), k ∈ data.map Prod.fst →
      commandStageLoadKeys.contains k = false → CommandStageSchema.load data ≠ .ok x) ∧
    (∀ (data : RawMap) (k : String) (x : CommandTestSpec), k ∈ data.map Prod.fst →
      commandTestSpecLoadKeys.contains k = false →
      CommandTestSpecSchema.load data ≠ .ok x) ∧
    (∀ (data : RawMap) (k : String) (x : CommandSpec), k ∈ data.map Prod.fst →
      commandSpecLoadKeys.contains k = false → CommandSpecSchema.load data ≠ .ok x) ∧
    CommandStageSchema.load [("command", Raw.str "c"), ("zzz", Raw.str "u")] =
      .error (.validation (.node [("zzz", .msgs ["Unknown field."])])) := by
  refine ⟨?_, ?_, ?_, ?_, ?_, ?_, rfl⟩
  · intro data k x hk hnot h
    unfold OptionSchema.load at h
    obtain ⟨⟨e1, v1⟩, -, h⟩ := bindOk h
    obtain ⟨⟨e2, v2⟩, -, h⟩ := bindOk h
    obtain ⟨⟨e3, v3⟩, -, h⟩ := bindOk h
    obtain ⟨⟨e4, v4⟩, -, h⟩ := bindOk h
    obtain ⟨⟨e5, v5⟩, -, h⟩ := bindOk h
    obtain ⟨⟨e6, v6⟩, -, h⟩ := bindOk h
    obtain ⟨⟨e7, v7⟩, -, h⟩ := bindOk h
    obtain ⟨⟨e8, v8⟩, -, h⟩ := bindOk h
    obtain ⟨⟨e9, v9⟩, -, h⟩ := bindOk h
    exact finishLoad_append_ne_ok (unknownErrors_ne_nil hk hnot) h
  · intro data k x hk hnot h
    unfold ArgumentSchema.load at h
    obtain ⟨⟨e1, v1⟩, -, h⟩ := bindOk h
    obtain ⟨⟨e2, v2⟩, -, h⟩ := bindOk h
    obtain ⟨⟨e3, v3⟩, -, h⟩ := bindOk h
    obtain ⟨⟨e4, v4⟩, -, h⟩ := bindOk h
    exact finishLoad_append_ne_ok (unknownErrors_ne_nil hk hnot) h
  · intro data k x hk hnot h
    unfold RemapParamSchema.load at h
    obtain ⟨⟨e1, v1⟩, -, h⟩ := bindOk h
    obtain ⟨⟨e2, v2⟩, -, h⟩ := bindOk h
    exact finishLoad_append_ne_ok (unknownErrors_ne_nil hk hnot) h
  · intro data k x hk hnot h
    unfold CommandStageSchema.load at h
    obtain ⟨⟨e1, v1⟩, -, h⟩ := bindOk h
    obtain ⟨⟨e2, v2⟩, -, h⟩ := bindOk h
    obtain ⟨⟨e3, v3⟩, -, h⟩ := bindOk h
    exact finishLoad_append_ne_ok (unknownErrors_ne_nil hk hnot) h
  · intro data k x hk hnot h
    unfold CommandTestSpecSchema.load at h
    obtain ⟨⟨e1, v1⟩, -, h⟩ := bindOk h
    obtain ⟨⟨e2, v2⟩, -, h⟩ := bindOk h
    obtain ⟨⟨e3, v3⟩, -, h⟩ := bindOk h
    exact finishLoad_append_ne_ok (unknownErrors_ne_nil hk hnot) h
  · intro data k x hk hnot h
    unfold CommandSpecSchema.load at h
    obtain ⟨⟨e1, v1⟩, -, h⟩ := bindOk h
    obtain ⟨⟨e2, v2⟩, -, h⟩ := bindOk h
    obtain ⟨⟨e3, v3⟩, -, h⟩ := bindOk h
    obtain ⟨⟨e4, v4⟩, -, h⟩ := bindOk h
    obtain ⟨⟨e5, v5⟩, -, h⟩ := bindOk h
    obtain ⟨⟨e6, v6⟩, -, h⟩ := bindOk h
    obtain ⟨⟨e7, v7⟩, -, h⟩ := bindOk h
    obtain ⟨⟨e8, v8⟩, -, h⟩ := bindOk h
    obtain ⟨⟨e9, v9⟩, -, h⟩ := bindOk h
    exact finishLoad_append_ne_ok (unknownErrors_ne_nil hk hnot) h

/-- Witness for C10 at the option configuration `{zzz: "u"}`. -/
theorem c10_unknown_key_witness :
    OptionSchema.load [("zzz", Raw.str "u")] ≠ .ok optDashX :=
  c10_unknown_key_amended.1 [("zzz", Raw.str "u")] "zzz" optDashX (by simp) rfl
